import Mathlib

/-!
Verification of the code-generator core in
`near-bindgen-core/src/code_generator/attr_sig_info.rs`.

The Rust code is a metadata-to-fragment transform: from an `AttrSigInfo`
(the signature model) it emits five token-stream fragments via `quote!`.
We embed each `quote!` template as a structure whose fields are exactly the
interpolated values of the template, and each generator method as a Lean
function mirroring the Rust iterator pipeline (filter / enumerate / fold).
A small operational semantics evaluates the callback fragments against a
host result table, modelling what the generated Rust code does at run time.
-/

/-- Serialization format of an argument or of the aggregate input.
Mirrors `SerializerType { JSON, Borsh }` from the info extractor. -/
inductive SerializerType
  | JSON
  | Borsh
deriving DecidableEq, Repr

/-- Kind of binding of one argument.
Mirrors `BindgenArgType { Regular, CallbackArg, CallbackArgVec }`. -/
inductive BindgenArgType
  | Regular
  | CallbackArg
  | CallbackArgVec
deriving DecidableEq, Repr

/-- One declared argument. Mirrors the fields of `ArgInfo` destructured in
`attr_sig_info.rs`: `reference` is the presence of the `&` token,
`mutability` the presence of the `mut` token, `ident` the binding name and
`ty` the (opaque) type expression, kept as a string. -/
structure ArgInfo where
  ident : String
  ty : String
  mutability : Bool
  reference : Bool
  bindgen_ty : BindgenArgType
  serializer_ty : SerializerType
deriving DecidableEq, Repr

/-- The signature model: ordered argument sequence plus the serializer of
the aggregate input struct. Mirrors the fields of `AttrSigInfo` used by the
five generator methods. -/
structure AttrSigInfo where
  args : List ArgInfo
  input_serializer : SerializerType
deriving DecidableEq, Repr

/-- Modelled from the spec: `AttrSigInfo::input_args` is defined in the
info extractor of this repository, which is not under `src/`. The spec
describes it as yielding exactly the ordinary (`Regular`) arguments, in
declaration order, for the input struct and the decomposition pattern. -/
def AttrSigInfo.input_args (self : AttrSigInfo) : List ArgInfo :=
  self.args.filter fun arg =>
    match arg.bindgen_ty with
    | BindgenArgType.Regular => true
    | _ => false

/-- The derive attribute emitted on the input struct:
`#[derive(serde::Deserialize)]` or `#[derive(borsh::BorshDeserialize)]`. -/
inductive DeriveAttr
  | serdeDeserialize
  | borshBorshDeserialize
deriving DecidableEq, Repr

/-- One field of the generated input struct: the `#ident: #ty,` fragment. -/
structure StructField where
  ident : String
  ty : String
deriving DecidableEq, Repr

/-- The `#attribute struct Input { #fields }` fragment produced by
`input_struct`. The `name` field holds the literal `Input` identifier token
of the template. -/
structure InputStructFragment where
  attr : DeriveAttr
  name : String
  fields : List StructField
deriving DecidableEq, Repr

/-- One binding of the decomposition pattern: the `#mutability #ident,`
fragment. -/
structure PatBinding where
  mutability : Bool
  ident : String
deriving DecidableEq, Repr

/-- The `Input { #fields }` pattern produced by `decomposition_pattern`.
The `name` field holds the literal `Input` identifier token. -/
structure DecompositionPattern where
  name : String
  fields : List PatBinding
deriving DecidableEq, Repr

/-- One call-site expression of the argument list: the
`#reference #mutability #ident,` fragment. -/
structure ArgListEntry where
  reference : Bool
  mutability : Bool
  ident : String
deriving DecidableEq, Repr

/-- Token rendering of one argument-list entry, as the `quote!` template
`#reference #mutability #ident` lays the tokens out: an optional `&`, an
optional `mut`, then the identifier. -/
def argListEntryTokens (e : ArgListEntry) : List String :=
  (if e.reference then ["&"] else []) ++
  (if e.mutability then ["mut"] else []) ++ [e.ident]

/-- Decode call emitted for one serializer format:
`serde_json::from_slice(&data)` or
`borsh::Deserialize::try_from_slice(&data)`. -/
inductive DecodeFn
  | serde_json_from_slice
  | borsh_try_from_slice
deriving DecidableEq, Repr

/-- The `#decode(&data).expect(#expect_msg)` invocation fragment. -/
structure Invocation where
  decode : DecodeFn
  expect_msg : String
deriving DecidableEq, Repr

/-- The `read_data` fragment of one scalar callback:
`let data = match near_bindgen::env::promise_result(#idx) { Successful(x) => x,
_ => abort("Callback computation ... was not successful", #idx) }`.
`promise_result_arg` is the `#idx` passed to the host fetch and
`panic_idx` the `#idx` interpolated into the failure message. -/
structure ReadData where
  promise_result_arg : Nat
  panic_idx : Nat
deriving DecidableEq, Repr

/-- One scalar-callback fragment: `#read_data` followed by
`let #mutability #ident: #ty = #invocation;`. -/
structure CallbackBinding where
  read_data : ReadData
  mutability : Bool
  ident : String
  ty : String
  invocation : Invocation
deriving DecidableEq, Repr

/-- Upper bound of the generated vector-callback loop: either a count baked
in at generation time, or the run-time host query
`near_bindgen::env::promise_results_count()`. The embedding of the source
always produces the latter; the former exists so that the absence of a
hard-coded count is a contentful statement. -/
inductive ResultCountExpr
  | lit (n : Nat)
  | promise_results_count
deriving DecidableEq, Repr

/-- One vector-callback fragment:
`let #mutability #ident: #ty = (#loop_lower..#loop_upper).map(|i| ...
#invocation).collect();`. -/
structure CallbackVecBinding where
  mutability : Bool
  ident : String
  ty : String
  loop_lower : Nat
  loop_upper : ResultCountExpr
  invocation : Invocation
deriving DecidableEq, Repr

/-- The `#ident: #ty,` field built for one argument inside `input_struct`. -/
def mkStructField (arg : ArgInfo) : StructField :=
  { ident := arg.ident, ty := arg.ty }

/-- Embedding of `AttrSigInfo::input_struct`. The `assert!` on an empty
`input_args` collection is the generation-time fatal error, modelled as
`Except.error` carrying the assert message; the success value mirrors the
`#attribute struct Input { #fields }` template, the fields accumulated in
order by the `for` loop. -/
def AttrSigInfo.input_struct (self : AttrSigInfo) : Except String InputStructFragment :=
  let args := self.input_args
  if args.isEmpty then
    Except.error "Can only generate input struct for when input args are specified"
  else
    let attr :=
      match self.input_serializer with
      | SerializerType.JSON => DeriveAttr.serdeDeserialize
      | SerializerType.Borsh => DeriveAttr.borshBorshDeserialize
    let fields := args.foldl (fun fields arg => fields ++ [mkStructField arg]) []
    Except.ok { attr := attr, name := "Input", fields := fields }

/-- The `#mutability #ident,` binding built for one argument inside
`decomposition_pattern`. -/
def mkPatBinding (arg : ArgInfo) : PatBinding :=
  { mutability := arg.mutability, ident := arg.ident }

/-- Embedding of `AttrSigInfo::decomposition_pattern`. Same empty-input
`assert!` as `input_struct`; the success value mirrors the
`Input { #fields }` template. -/
def AttrSigInfo.decomposition_pattern (self : AttrSigInfo) : Except String DecompositionPattern :=
  let args := self.input_args
  if args.isEmpty then
    Except.error "Can only generate decomposition pattern for when input args are specified."
  else
    let fields := args.foldl (fun fields arg => fields ++ [mkPatBinding arg]) []
    Except.ok { name := "Input", fields := fields }

/-- The `#reference #mutability #ident,` entry built for one argument
inside `arg_list`. -/
def mkArgListEntry (arg : ArgInfo) : ArgListEntry :=
  { reference := arg.reference, mutability := arg.mutability, ident := arg.ident }

/-- Embedding of `AttrSigInfo::arg_list`: the loop over all arguments, each
extending the result with its `#reference #mutability #ident,` entry. -/
def AttrSigInfo.arg_list (self : AttrSigInfo) : List ArgListEntry :=
  self.args.foldl (fun result arg => result ++ [mkArgListEntry arg]) []

/-- The scalar-callback fragment built for one `(idx, arg)` pair of the
enumerated filtered iterator inside `callback_deserialization`: `read_data`
uses `#idx` both as the `promise_result` argument and in the failure
message, and `invocation` matches on the per-argument `serializer_ty`. -/
def mkCallbackBinding (p : Nat × ArgInfo) : CallbackBinding :=
  let idx := p.1
  let arg := p.2
  let read_data : ReadData := { promise_result_arg := idx, panic_idx := idx }
  let invocation : Invocation :=
    match arg.serializer_ty with
    | SerializerType.JSON =>
      { decode := DecodeFn.serde_json_from_slice,
        expect_msg := "Failed to deserialize callback using JSON" }
    | SerializerType.Borsh =>
      { decode := DecodeFn.borsh_try_from_slice,
        expect_msg := "Failed to deserialize callback using JSON" }
  { read_data := read_data, mutability := arg.mutability,
    ident := arg.ident, ty := arg.ty, invocation := invocation }

/-- Embedding of `AttrSigInfo::callback_deserialization`: filter the
arguments to the `CallbackArg` kind, enumerate, and fold the per-argument
fragments onto the accumulator in order. -/
def AttrSigInfo.callback_deserialization (self : AttrSigInfo) : List CallbackBinding :=
  ((self.args.filter fun arg =>
      match arg.bindgen_ty with
      | BindgenArgType.CallbackArg => true
      | _ => false).enum).foldl
    (fun acc p => acc ++ [mkCallbackBinding p]) []

/-- The vector-callback fragment built for one argument inside
`callback_vec_deserialization`: the loop runs from the literal `0` to the
run-time `promise_results_count()` query, and `invocation` matches on the
per-argument `serializer_ty`. -/
def mkCallbackVecBinding (arg : ArgInfo) : CallbackVecBinding :=
  let invocation : Invocation :=
    match arg.serializer_ty with
    | SerializerType.JSON =>
      { decode := DecodeFn.serde_json_from_slice,
        expect_msg := "Failed to deserialize callback using JSON" }
    | SerializerType.Borsh =>
      { decode := DecodeFn.borsh_try_from_slice,
        expect_msg := "Failed to deserialize callback using JSON" }
  { mutability := arg.mutability, ident := arg.ident, ty := arg.ty,
    loop_lower := 0, loop_upper := ResultCountExpr.promise_results_count,
    invocation := invocation }

/-- Embedding of `AttrSigInfo::callback_vec_deserialization`: filter the
arguments to the `CallbackArgVec` kind and fold the per-argument fragments
onto the accumulator in order. -/
def AttrSigInfo.callback_vec_deserialization (self : AttrSigInfo) : List CallbackVecBinding :=
  (self.args.filter fun arg =>
      match arg.bindgen_ty with
      | BindgenArgType.CallbackArgVec => true
      | _ => false).foldl
    (fun acc arg => acc ++ [mkCallbackVecBinding arg]) []

/-- Modelled from the spec: outcome of one host asynchronous sub-call, the
external `fetch_result(index) -> Successful(bytes) | Failed` surface that
the generated code consumes (`near_bindgen::PromiseResult` lives outside
this crate). Bytes are modelled as a list of naturals. -/
inductive PromiseResult
  | Successful (x : List Nat)
  | Failed
deriving DecidableEq, Repr

/-- Modelled from the spec: the host result table, immutable and fully
populated before the generated code executes. -/
structure HostEnv where
  results : List PromiseResult
deriving DecidableEq, Repr

/-- Modelled from the spec: `result_count()`, the run-time count of
available host results (`near_bindgen::env::promise_results_count`). -/
def promise_results_count (env : HostEnv) : Nat :=
  env.results.length

/-- Modelled from the spec: `fetch_result(index)`
(`near_bindgen::env::promise_result`); an out-of-table index reads as a
failed result. -/
def promise_result (env : HostEnv) (i : Nat) : PromiseResult :=
  env.results.getD i PromiseResult.Failed

/-- A decoded callback value, kept symbolic: the decode function that was
applied and the raw bytes it was applied to. Decoding itself is external
(serde / borsh), so its output is opaque to this development. -/
structure Decoded where
  fn : DecodeFn
  data : List Nat
deriving DecidableEq, Repr

/-- The invocation fragment that the generators emit for each serializer
format, stated once so theorems can relate a fragment to the serializer of
its argument. -/
def serializerInvocation : SerializerType → Invocation
  | SerializerType.JSON =>
    { decode := DecodeFn.serde_json_from_slice,
      expect_msg := "Failed to deserialize callback using JSON" }
  | SerializerType.Borsh =>
    { decode := DecodeFn.borsh_try_from_slice,
      expect_msg := "Failed to deserialize callback using JSON" }

/-- The run-time failure message of the generated
`Callback computation ... was not successful` abort, with the index
rendered into the format placeholder. -/
def callbackFailureMsg (i : Nat) : String :=
  "Callback computation " ++ toString i ++ " was not successful"

/-- Run-time behaviour of one scalar-callback fragment: fetch the host
result at the generated index; on success bind the decode of its bytes, on
anything else abort the contract call with the message naming the
generated index. `Except.error` models the run-time abort. -/
def runCallbackBinding (env : HostEnv) (b : CallbackBinding) : Except String Decoded :=
  match promise_result env b.read_data.promise_result_arg with
  | PromiseResult.Successful x =>
    Except.ok { fn := b.invocation.decode, data := x }
  | PromiseResult.Failed =>
    Except.error (callbackFailureMsg b.read_data.panic_idx)

/-- Run-time value of the loop upper bound of a vector-callback fragment:
a baked-in literal evaluates to itself, the host query evaluates to the
current result count. -/
def evalResultCount (env : HostEnv) : ResultCountExpr → Nat
  | ResultCountExpr.lit n => n
  | ResultCountExpr.promise_results_count => promise_results_count env

/-- Run-time behaviour of the generated `(i..i+n).map(...)` loop body:
collect `n` host results starting at index `i`, decoding each successful
one and aborting at the first unsuccessful one with the message naming its
index. -/
def collectRange (env : HostEnv) (fn : DecodeFn) : Nat → Nat → Except String (List Decoded)
  | _, 0 => Except.ok []
  | i, Nat.succ n =>
    match promise_result env i with
    | PromiseResult.Successful x =>
      match collectRange env fn (i + 1) n with
      | Except.ok rest => Except.ok ({ fn := fn, data := x } :: rest)
      | Except.error e => Except.error e
    | PromiseResult.Failed =>
      Except.error (callbackFailureMsg i)

/-- Run-time behaviour of one vector-callback fragment: iterate every
index from the loop lower bound up to the evaluated upper bound,
exclusive, collecting the decoded results in host order. -/
def runCallbackVecBinding (env : HostEnv) (b : CallbackVecBinding) : Except String (List Decoded) :=
  collectRange env b.invocation.decode b.loop_lower
    (evalResultCount env b.loop_upper - b.loop_lower)

/-- Folding an append of singletons is a map: the common shape of every
generator loop in the source. -/
theorem foldl_append_singleton {α β : Type} (f : α → β) :
    ∀ (l : List α) (acc : List β),
      l.foldl (fun a x => a ++ [f x]) acc = acc ++ l.map f := by
  intro l
  induction l with
  | nil => intro acc; simp
  | cons x xs ih =>
    intro acc
    simp [List.foldl_cons, ih]

/-- The filter selecting the scalar-callback arguments. -/
def callbackArgs (self : AttrSigInfo) : List ArgInfo :=
  self.args.filter fun arg =>
    match arg.bindgen_ty with
    | BindgenArgType.CallbackArg => true
    | _ => false

/-- The filter selecting the vector-callback arguments. -/
def callbackVecArgs (self : AttrSigInfo) : List ArgInfo :=
  self.args.filter fun arg =>
    match arg.bindgen_ty with
    | BindgenArgType.CallbackArgVec => true
    | _ => false

theorem callback_deserialization_eq_map (s : AttrSigInfo) :
    s.callback_deserialization = (callbackArgs s).enum.map mkCallbackBinding := by
  unfold AttrSigInfo.callback_deserialization callbackArgs
  rw [foldl_append_singleton, List.nil_append]

theorem callback_vec_deserialization_eq_map (s : AttrSigInfo) :
    s.callback_vec_deserialization = (callbackVecArgs s).map mkCallbackVecBinding := by
  unfold AttrSigInfo.callback_vec_deserialization callbackVecArgs
  rw [foldl_append_singleton, List.nil_append]

theorem arg_list_eq_map (s : AttrSigInfo) :
    s.arg_list = s.args.map mkArgListEntry := by
  unfold AttrSigInfo.arg_list
  rw [foldl_append_singleton, List.nil_append]

theorem input_struct_eq_of_ne_nil (s : AttrSigInfo) (h : s.input_args ≠ []) :
    s.input_struct = Except.ok
      { attr :=
          match s.input_serializer with
          | SerializerType.JSON => DeriveAttr.serdeDeserialize
          | SerializerType.Borsh => DeriveAttr.borshBorshDeserialize,
        name := "Input",
        fields := s.input_args.map mkStructField } := by
  unfold AttrSigInfo.input_struct
  have he : s.input_args.isEmpty = false := by
    cases hc : s.input_args with
    | nil => exact absurd hc h
    | cons a l => simp [hc]
  simp only [he, if_neg Bool.false_ne_true, foldl_append_singleton, List.nil_append]

theorem decomposition_pattern_eq_of_ne_nil (s : AttrSigInfo) (h : s.input_args ≠ []) :
    s.decomposition_pattern = Except.ok
      { name := "Input", fields := s.input_args.map mkPatBinding } := by
  unfold AttrSigInfo.decomposition_pattern
  have he : s.input_args.isEmpty = false := by
    cases hc : s.input_args with
    | nil => exact absurd hc h
    | cons a l => simp [hc]
  simp only [he, if_neg Bool.false_ne_true, foldl_append_singleton, List.nil_append]

theorem promise_result_map_successful (xs : List (List Nat)) (i : Nat) (h : i < xs.length) :
    promise_result { results := xs.map PromiseResult.Successful } i
      = PromiseResult.Successful xs[i] := by
  unfold promise_result
  have hm : i < (xs.map PromiseResult.Successful).length := by simpa using h
  rw [List.getD_eq_getElem _ _ hm, List.getElem_map]

theorem collectRange_all_success (fn : DecodeFn) :
    ∀ (xs : List (List Nat)) (k : Nat) (env : HostEnv),
      (∀ i (h : i < xs.length),
          promise_result env (k + i) = PromiseResult.Successful xs[i]) →
      collectRange env fn k xs.length
        = Except.ok (xs.map fun x => { fn := fn, data := x }) := by
  intro xs
  induction xs with
  | nil =>
    intro k env _
    rfl
  | cons x xs ih =>
    intro k env hsucc
    have h0 : promise_result env k = PromiseResult.Successful x := by
      have h1 := hsucc 0 (by simp)
      simpa using h1
    have hrest : collectRange env fn (k + 1) xs.length
        = Except.ok (xs.map fun v => { fn := fn, data := v }) := by
      apply ih
      intro i h
      have h2 := hsucc (i + 1) (by simpa using Nat.succ_lt_succ h)
      have hk : k + (i + 1) = k + 1 + i := by omega
      rw [hk] at h2
      simpa using h2
    show collectRange env fn k (xs.length + 1) = _
    simp [collectRange, h0, hrest]

/-- C1: for every signature, the host-result fetch indices of the
scalar-callback fragments, in emission order, are exactly
`0, 1, ..., n-1` where `n` is the length of the `CallbackArg`
subsequence, and the fragments bind exactly the identifiers of that
subsequence in order — so the index of each argument is its 0-based rank
among the `CallbackArg` arguments only, independent of interleaved
`Regular` or `CallbackArgVec` arguments. -/
theorem C1_scalar_fetch_index_is_subsequence_rank (s : AttrSigInfo) :
    (s.callback_deserialization.map fun b => b.read_data.promise_result_arg)
      = List.range (callbackArgs s).length ∧
    (s.callback_deserialization.map fun b => b.ident)
      = (callbackArgs s).map ArgInfo.ident := by
  rw [callback_deserialization_eq_map]
  constructor
  · rw [List.map_map]
    have h : ((fun b : CallbackBinding => b.read_data.promise_result_arg) ∘ mkCallbackBinding)
        = (Prod.fst : Nat × ArgInfo → Nat) := rfl
    rw [h, List.enum_map_fst]
  · rw [List.map_map]
    have h : ((fun b : CallbackBinding => b.ident) ∘ mkCallbackBinding)
        = (ArgInfo.ident ∘ Prod.snd : Nat × ArgInfo → String) := rfl
    rw [h, ← List.map_map, List.enum_map_snd]

/-- C6: the argument list has exactly one entry per argument, in original
declaration order and regardless of binding kind, and an empty argument
sequence yields an empty list. -/
theorem C6_arg_list_one_entry_per_argument (s : AttrSigInfo) :
    s.arg_list.map ArgListEntry.ident = s.args.map ArgInfo.ident ∧
    (s.args = [] → s.arg_list = []) := by
  constructor
  · rw [arg_list_eq_map, List.map_map]
    rfl
  · intro h
    rw [arg_list_eq_map, h]
    rfl

/-- Witness for C6 at the empty signature. -/
theorem C6_arg_list_one_entry_per_argument_witness :
    AttrSigInfo.arg_list { args := [], input_serializer := SerializerType.JSON } = [] :=
  (C6_arg_list_one_entry_per_argument
    { args := [], input_serializer := SerializerType.JSON }).2 rfl

/-- C7 counterexample: for a by-value argument whose binding is mutable,
`arg_list` emits the `mut` marker inside the call-site expression
(`mut a`), not the bare identifier the claim requires. -/
theorem C7_counterexample_mut_in_call_expression :
    (AttrSigInfo.arg_list
        { args := [{ ident := "a", ty := "u64", mutability := true, reference := false,
                     bindgen_ty := BindgenArgType.Regular,
                     serializer_ty := SerializerType.JSON }],
          input_serializer := SerializerType.JSON }).map argListEntryTokens
      = [["mut", "a"]] ∧
    ¬ ([["mut", "a"]] = [[("a" : String)]]) := by
  constructor
  · rfl
  · decide

/-- C7 amended: every call-site expression is the identifier prefixed by
the reference marker and then by the mutability marker; in particular the
mutability marker, when present, is part of the emitted call expression,
so a by-value mutable argument is emitted as `mut` followed by its
identifier rather than as the bare identifier. -/
theorem C7_amended_arg_list_tokens (s : AttrSigInfo) :
    s.arg_list.map argListEntryTokens
      = s.args.map fun a =>
          (if a.reference then ["&"] else []) ++
          (if a.mutability then ["mut"] else []) ++ [a.ident] := by
  rw [arg_list_eq_map, List.map_map]
  rfl

/-- C9: a signature with no `CallbackArg` argument makes
`callback_deserialization` return the empty fragment, and a signature with
no `CallbackArgVec` argument makes `callback_vec_deserialization` return
the empty fragment; neither operation has a non-emptiness precondition. -/
theorem C9_no_callbacks_empty_fragments (s : AttrSigInfo) :
    ((∀ a ∈ s.args, a.bindgen_ty ≠ BindgenArgType.CallbackArg) →
        s.callback_deserialization = []) ∧
    ((∀ a ∈ s.args, a.bindgen_ty ≠ BindgenArgType.CallbackArgVec) →
        s.callback_vec_deserialization = []) := by
  constructor
  · intro h
    rw [callback_deserialization_eq_map]
    have hnil : callbackArgs s = [] := by
      apply List.filter_eq_nil_iff.mpr
      intro a ha
      have hne := h a ha
      cases hb : a.bindgen_ty <;> simp [hb] at hne ⊢
    rw [hnil]
    rfl
  · intro h
    rw [callback_vec_deserialization_eq_map]
    have hnil : callbackVecArgs s = [] := by
      apply List.filter_eq_nil_iff.mpr
      intro a ha
      have hne := h a ha
      cases hb : a.bindgen_ty <;> simp [hb] at hne ⊢
    rw [hnil]
    rfl

/-- Witness for C9 at a signature with one `Regular` argument. -/
theorem C9_no_callbacks_empty_fragments_witness :
    AttrSigInfo.callback_deserialization
      { args := [{ ident := "a", ty := "u64", mutability := false, reference := false,
                   bindgen_ty := BindgenArgType.Regular,
                   serializer_ty := SerializerType.JSON }],
        input_serializer := SerializerType.JSON } = [] ∧
    AttrSigInfo.callback_vec_deserialization
      { args := [{ ident := "a", ty := "u64", mutability := false, reference := false,
                   bindgen_ty := BindgenArgType.Regular,
                   serializer_ty := SerializerType.JSON }],
        input_serializer := SerializerType.JSON } = [] :=
  ⟨(C9_no_callbacks_empty_fragments
      { args := [{ ident := "a", ty := "u64", mutability := false, reference := false,
                   bindgen_ty := BindgenArgType.Regular,
                   serializer_ty := SerializerType.JSON }],
        input_serializer := SerializerType.JSON }).1 (by decide),
   (C9_no_callbacks_empty_fragments
      { args := [{ ident := "a", ty := "u64", mutability := false, reference := false,
                   bindgen_ty := BindgenArgType.Regular,
                   serializer_ty := SerializerType.JSON }],
        input_serializer := SerializerType.JSON }).2 (by decide)⟩

/-- C10: whenever `input_struct` and `decomposition_pattern` both succeed,
the record type emitted by the former and the type destructured by the
latter carry the same fixed literal name `Input`, independent of the entry
point and its arguments. -/
theorem C10_fixed_input_type_name (s : AttrSigInfo) (st : InputStructFragment)
    (pat : DecompositionPattern) (hst : s.input_struct = Except.ok st)
    (hpat : s.decomposition_pattern = Except.ok pat) :
    st.name = "Input" ∧ pat.name = "Input" := by
  by_cases h : s.input_args = []
  · exfalso
    unfold AttrSigInfo.input_struct at hst
    simp [h] at hst
  · rw [input_struct_eq_of_ne_nil s h] at hst
    rw [decomposition_pattern_eq_of_ne_nil s h] at hpat
    simp only [Except.ok.injEq] at hst hpat
    subst hst hpat
    exact ⟨rfl, rfl⟩

/-- Witness for C10 at a signature with one `Regular` argument. -/
theorem C10_fixed_input_type_name_witness :
    ({ attr := DeriveAttr.serdeDeserialize, name := "Input",
       fields := [{ ident := "a", ty := "u64" }] } : InputStructFragment).name = "Input" ∧
    ({ name := "Input",
       fields := [{ mutability := false, ident := "a" }] } : DecompositionPattern).name
      = "Input" :=
  C10_fixed_input_type_name
    { args := [{ ident := "a", ty := "u64", mutability := false, reference := false,
                 bindgen_ty := BindgenArgType.Regular,
                 serializer_ty := SerializerType.JSON }],
      input_serializer := SerializerType.JSON }
    _ _ rfl rfl

/-- C3: every scalar-callback fragment aborts the contract call with the
failure message naming its assigned index whenever the fetched host result
is not successful, and on success binds the decode of the raw bytes by the
per-argument serializer of the corresponding `CallbackArg` argument,
together with that argument's identifier, mutability and type; the
fragment is the same for every `input_serializer`. -/
theorem C3_scalar_callback_abort_and_decode (s : AttrSigInfo) (b : CallbackBinding)
    (hb : b ∈ s.callback_deserialization) :
    (∀ env : HostEnv,
        promise_result env b.read_data.promise_result_arg = PromiseResult.Failed →
        runCallbackBinding env b
          = Except.error (callbackFailureMsg b.read_data.promise_result_arg)) ∧
    (∀ (env : HostEnv) (x : List Nat),
        promise_result env b.read_data.promise_result_arg = PromiseResult.Successful x →
        runCallbackBinding env b = Except.ok { fn := b.invocation.decode, data := x }) ∧
    (∃ a, a ∈ s.args ∧ a.bindgen_ty = BindgenArgType.CallbackArg ∧
        b.ident = a.ident ∧ b.mutability = a.mutability ∧ b.ty = a.ty ∧
        b.invocation = serializerInvocation a.serializer_ty) ∧
    (∀ ser : SerializerType,
        AttrSigInfo.callback_deserialization { args := s.args, input_serializer := ser }
          = s.callback_deserialization) := by
  rw [callback_deserialization_eq_map] at hb
  obtain ⟨p, hp, rfl⟩ := List.mem_map.mp hb
  obtain ⟨idx, a⟩ := p
  have h1 := List.mem_map_of_mem Prod.snd hp
  rw [List.enum_map_snd] at h1
  have h2 := List.mem_filter.mp h1
  refine ⟨?_, ?_, ⟨a, h2.1, ?_, rfl, rfl, rfl, ?_⟩, fun ser => rfl⟩
  · intro env hf
    unfold runCallbackBinding
    rw [hf]
    rfl
  · intro env x hx
    unfold runCallbackBinding
    rw [hx]
  · have h3 := h2.2
    cases hb2 : a.bindgen_ty <;> simp [hb2] at h3 ⊢
  · cases hs : a.serializer_ty <;> simp [mkCallbackBinding, serializerInvocation, hs]

/-- Witness for C3: in a signature whose only argument is a Borsh
`CallbackArg`, the emitted fragment aborts on a failed host result 0 with
the message naming index 0. -/
theorem C3_scalar_callback_abort_and_decode_witness :
    runCallbackBinding { results := [PromiseResult.Failed] }
      { read_data := { promise_result_arg := 0, panic_idx := 0 },
        mutability := false, ident := "c", ty := "u64",
        invocation := { decode := DecodeFn.borsh_try_from_slice,
                        expect_msg := "Failed to deserialize callback using JSON" } }
      = Except.error (callbackFailureMsg 0) :=
  (C3_scalar_callback_abort_and_decode
    { args := [{ ident := "c", ty := "u64", mutability := false, reference := false,
                 bindgen_ty := BindgenArgType.CallbackArg,
                 serializer_ty := SerializerType.Borsh }],
      input_serializer := SerializerType.JSON }
    { read_data := { promise_result_arg := 0, panic_idx := 0 },
      mutability := false, ident := "c", ty := "u64",
      invocation := { decode := DecodeFn.borsh_try_from_slice,
                      expect_msg := "Failed to deserialize callback using JSON" } }
    (by decide)).1 { results := [PromiseResult.Failed] } rfl

/-- C2: every vector-callback fragment loops from the literal 0 to the
run-time `promise_results_count()` query, never to a count baked in at
generation time; it carries the identifier, mutability, type and
per-argument serializer of the corresponding `CallbackArgVec` argument,
and at run time it collects the decode of every host result, in
host-result order, for any result count. -/
theorem C2_vec_callback_runtime_count (s : AttrSigInfo) (b : CallbackVecBinding)
    (hb : b ∈ s.callback_vec_deserialization) :
    b.loop_lower = 0 ∧
    b.loop_upper = ResultCountExpr.promise_results_count ∧
    (∀ n, b.loop_upper ≠ ResultCountExpr.lit n) ∧
    (∃ a, a ∈ s.args ∧ a.bindgen_ty = BindgenArgType.CallbackArgVec ∧
        b.ident = a.ident ∧ b.mutability = a.mutability ∧ b.ty = a.ty ∧
        b.invocation = serializerInvocation a.serializer_ty) ∧
    (∀ xs : List (List Nat),
        runCallbackVecBinding { results := xs.map PromiseResult.Successful } b
          = Except.ok (xs.map fun x => { fn := b.invocation.decode, data := x })) := by
  rw [callback_vec_deserialization_eq_map] at hb
  obtain ⟨a, ha, rfl⟩ := List.mem_map.mp hb
  have h2 := List.mem_filter.mp ha
  refine ⟨rfl, rfl, ?_, ⟨a, h2.1, ?_, rfl, rfl, rfl, ?_⟩, ?_⟩
  · intro n
    simp [mkCallbackVecBinding]
  · have h3 := h2.2
    cases hb2 : a.bindgen_ty <;> simp [hb2] at h3 ⊢
  · cases hs : a.serializer_ty <;> simp [mkCallbackVecBinding, serializerInvocation, hs]
  · intro xs
    unfold runCallbackVecBinding
    have hlow : (mkCallbackVecBinding a).loop_lower = 0 := rfl
    have hlen : evalResultCount { results := xs.map PromiseResult.Successful }
        (mkCallbackVecBinding a).loop_upper - (mkCallbackVecBinding a).loop_lower
        = xs.length := by
      simp [mkCallbackVecBinding, evalResultCount, promise_results_count]
    rw [hlen, hlow]
    exact collectRange_all_success _ xs 0 _
      (fun i h => by rw [Nat.zero_add]; exact promise_result_map_successful xs i h)

/-- Witness for C2: a lone JSON `CallbackArgVec` argument, run against a
two-entry host result table, collects both decoded results in order. -/
theorem C2_vec_callback_runtime_count_witness :
    runCallbackVecBinding
      { results := [PromiseResult.Successful [7], PromiseResult.Successful [8, 9]] }
      { mutability := true, ident := "items", ty := "Vec<u64>", loop_lower := 0,
        loop_upper := ResultCountExpr.promise_results_count,
        invocation := { decode := DecodeFn.serde_json_from_slice,
                        expect_msg := "Failed to deserialize callback using JSON" } }
      = Except.ok [{ fn := DecodeFn.serde_json_from_slice, data := [7] },
                   { fn := DecodeFn.serde_json_from_slice, data := [8, 9] }] :=
  (C2_vec_callback_runtime_count
    { args := [{ ident := "items", ty := "Vec<u64>", mutability := true, reference := false,
                 bindgen_ty := BindgenArgType.CallbackArgVec,
                 serializer_ty := SerializerType.JSON }],
      input_serializer := SerializerType.Borsh }
    { mutability := true, ident := "items", ty := "Vec<u64>", loop_lower := 0,
      loop_upper := ResultCountExpr.promise_results_count,
      invocation := { decode := DecodeFn.serde_json_from_slice,
                      expect_msg := "Failed to deserialize callback using JSON" } }
    (by decide)).2.2.2.2 [[7], [8, 9]]

/-- C4: for every signature with a non-empty `Regular` subsequence, the
input-struct fields and the decomposition-pattern bindings list exactly
the `Regular` identifiers, in declaration order, and each binding is
mutable exactly when the argument is. -/
theorem C4_input_struct_decomposition_agree (s : AttrSigInfo) (h : s.input_args ≠ []) :
    ∃ (st : InputStructFragment) (pat : DecompositionPattern),
      s.input_struct = Except.ok st ∧
      s.decomposition_pattern = Except.ok pat ∧
      st.fields.map StructField.ident = s.input_args.map ArgInfo.ident ∧
      pat.fields.map PatBinding.ident = s.input_args.map ArgInfo.ident ∧
      pat.fields.map PatBinding.mutability = s.input_args.map ArgInfo.mutability := by
  have e1 : ∀ l : List ArgInfo,
      (l.map mkStructField).map StructField.ident = l.map ArgInfo.ident := by
    intro l
    rw [List.map_map]
    rfl
  have e2 : ∀ l : List ArgInfo,
      (l.map mkPatBinding).map PatBinding.ident = l.map ArgInfo.ident := by
    intro l
    rw [List.map_map]
    rfl
  have e3 : ∀ l : List ArgInfo,
      (l.map mkPatBinding).map PatBinding.mutability = l.map ArgInfo.mutability := by
    intro l
    rw [List.map_map]
    rfl
  exact ⟨_, _, input_struct_eq_of_ne_nil s h, decomposition_pattern_eq_of_ne_nil s h,
    e1 s.input_args, e2 s.input_args, e3 s.input_args⟩

/-- Witness for C4 at a two-argument signature, the second binding
mutable. -/
theorem C4_input_struct_decomposition_agree_witness :
    ∃ (st : InputStructFragment) (pat : DecompositionPattern),
      AttrSigInfo.input_struct
        { args := [{ ident := "a", ty := "u64", mutability := false, reference := false,
                     bindgen_ty := BindgenArgType.Regular,
                     serializer_ty := SerializerType.JSON },
                   { ident := "b", ty := "String", mutability := true, reference := false,
                     bindgen_ty := BindgenArgType.Regular,
                     serializer_ty := SerializerType.JSON }],
          input_serializer := SerializerType.JSON } = Except.ok st ∧
      AttrSigInfo.decomposition_pattern
        { args := [{ ident := "a", ty := "u64", mutability := false, reference := false,
                     bindgen_ty := BindgenArgType.Regular,
                     serializer_ty := SerializerType.JSON },
                   { ident := "b", ty := "String", mutability := true, reference := false,
                     bindgen_ty := BindgenArgType.Regular,
                     serializer_ty := SerializerType.JSON }],
          input_serializer := SerializerType.JSON } = Except.ok pat ∧
      st.fields.map StructField.ident
        = (AttrSigInfo.input_args
            { args := [{ ident := "a", ty := "u64", mutability := false, reference := false,
                         bindgen_ty := BindgenArgType.Regular,
                         serializer_ty := SerializerType.JSON },
                       { ident := "b", ty := "String", mutability := true, reference := false,
                         bindgen_ty := BindgenArgType.Regular,
                         serializer_ty := SerializerType.JSON }],
              input_serializer := SerializerType.JSON }).map ArgInfo.ident ∧
      pat.fields.map PatBinding.ident
        = (AttrSigInfo.input_args
            { args := [{ ident := "a", ty := "u64", mutability := false, reference := false,
                         bindgen_ty := BindgenArgType.Regular,
                         serializer_ty := SerializerType.JSON },
                       { ident := "b", ty := "String", mutability := true, reference := false,
                         bindgen_ty := BindgenArgType.Regular,
                         serializer_ty := SerializerType.JSON }],
              input_serializer := SerializerType.JSON }).map ArgInfo.ident ∧
      pat.fields.map PatBinding.mutability
        = (AttrSigInfo.input_args
            { args := [{ ident := "a", ty := "u64", mutability := false, reference := false,
                         bindgen_ty := BindgenArgType.Regular,
                         serializer_ty := SerializerType.JSON },
                       { ident := "b", ty := "String", mutability := true, reference := false,
                         bindgen_ty := BindgenArgType.Regular,
                         serializer_ty := SerializerType.JSON }],
              input_serializer := SerializerType.JSON }).map ArgInfo.mutability :=
  C4_input_struct_decomposition_agree
    { args := [{ ident := "a", ty := "u64", mutability := false, reference := false,
                 bindgen_ty := BindgenArgType.Regular,
                 serializer_ty := SerializerType.JSON },
               { ident := "b", ty := "String", mutability := true, reference := false,
                 bindgen_ty := BindgenArgType.Regular,
                 serializer_ty := SerializerType.JSON }],
      input_serializer := SerializerType.JSON }
    (by decide)

/-- C5: a signature with no `Regular` argument makes both `input_struct`
and `decomposition_pattern` fail immediately with their generation-time
precondition errors, producing no fragment. -/
theorem C5_empty_regular_args_fail (s : AttrSigInfo) (h : s.input_args = []) :
    s.input_struct
      = Except.error "Can only generate input struct for when input args are specified" ∧
    s.decomposition_pattern
      = Except.error "Can only generate decomposition pattern for when input args are specified." := by
  unfold AttrSigInfo.input_struct AttrSigInfo.decomposition_pattern
  constructor <;> simp [h]

/-- Witness for C5 at a signature whose only argument is a callback, so
its `Regular` subsequence is empty. -/
theorem C5_empty_regular_args_fail_witness :
    AttrSigInfo.input_struct
      { args := [{ ident := "c", ty := "u64", mutability := false, reference := false,
                   bindgen_ty := BindgenArgType.CallbackArg,
                   serializer_ty := SerializerType.Borsh }],
        input_serializer := SerializerType.JSON }
      = Except.error "Can only generate input struct for when input args are specified" ∧
    AttrSigInfo.decomposition_pattern
      { args := [{ ident := "c", ty := "u64", mutability := false, reference := false,
                   bindgen_ty := BindgenArgType.CallbackArg,
                   serializer_ty := SerializerType.Borsh }],
        input_serializer := SerializerType.JSON }
      = Except.error "Can only generate decomposition pattern for when input args are specified." :=
  C5_empty_regular_args_fail
    { args := [{ ident := "c", ty := "u64", mutability := false, reference := false,
                 bindgen_ty := BindgenArgType.CallbackArg,
                 serializer_ty := SerializerType.Borsh }],
      input_serializer := SerializerType.JSON }
    (by decide)

/-- C8: the decode-failure message of every callback fragment, scalar or
vector, is the fixed string naming JSON, for the Borsh serializer as much
as for the JSON one — the message does not identify the declared
format. -/
theorem C8_borsh_expect_message_names_json (s : AttrSigInfo) (b : CallbackBinding)
    (bv : CallbackVecBinding) :
    (b ∈ s.callback_deserialization →
        b.invocation.expect_msg = "Failed to deserialize callback using JSON") ∧
    (bv ∈ s.callback_vec_deserialization →
        bv.invocation.expect_msg = "Failed to deserialize callback using JSON") ∧
    (serializerInvocation SerializerType.Borsh).expect_msg
      = (serializerInvocation SerializerType.JSON).expect_msg := by
  refine ⟨?_, ?_, rfl⟩
  · intro hb
    rw [callback_deserialization_eq_map] at hb
    obtain ⟨p, hp, rfl⟩ := List.mem_map.mp hb
    obtain ⟨idx, a⟩ := p
    cases hs : a.serializer_ty <;> simp [mkCallbackBinding, hs]
  · intro hbv
    rw [callback_vec_deserialization_eq_map] at hbv
    obtain ⟨a, ha, rfl⟩ := List.mem_map.mp hbv
    cases hs : a.serializer_ty <;> simp [mkCallbackVecBinding, hs]

/-- Witness for C8 at Borsh-serialized scalar and vector callback
arguments. -/
theorem C8_borsh_expect_message_names_json_witness :
    ({ read_data := { promise_result_arg := 0, panic_idx := 0 },
       mutability := false, ident := "c", ty := "u64",
       invocation := { decode := DecodeFn.borsh_try_from_slice,
                       expect_msg := "Failed to deserialize callback using JSON" } }
      : CallbackBinding).invocation.expect_msg
      = "Failed to deserialize callback using JSON" ∧
    ({ mutability := false, ident := "v", ty := "Vec<u64>", loop_lower := 0,
       loop_upper := ResultCountExpr.promise_results_count,
       invocation := { decode := DecodeFn.borsh_try_from_slice,
                       expect_msg := "Failed to deserialize callback using JSON" } }
      : CallbackVecBinding).invocation.expect_msg
      = "Failed to deserialize callback using JSON" :=
  ⟨(C8_borsh_expect_message_names_json
      { args := [{ ident := "c", ty := "u64", mutability := false, reference := false,
                   bindgen_ty := BindgenArgType.CallbackArg,
                   serializer_ty := SerializerType.Borsh },
                 { ident := "v", ty := "Vec<u64>", mutability := false, reference := false,
                   bindgen_ty := BindgenArgType.CallbackArgVec,
                   serializer_ty := SerializerType.Borsh }],
        input_serializer := SerializerType.JSON }
      { read_data := { promise_result_arg := 0, panic_idx := 0 },
        mutability := false, ident := "c", ty := "u64",
        invocation := { decode := DecodeFn.borsh_try_from_slice,
                        expect_msg := "Failed to deserialize callback using JSON" } }
      { mutability := false, ident := "v", ty := "Vec<u64>", loop_lower := 0,
        loop_upper := ResultCountExpr.promise_results_count,
        invocation := { decode := DecodeFn.borsh_try_from_slice,
                        expect_msg := "Failed to deserialize callback using JSON" } }).1
      (by decide),
   (C8_borsh_expect_message_names_json
      { args := [{ ident := "c", ty := "u64", mutability := false, reference := false,
                   bindgen_ty := BindgenArgType.CallbackArg,
                   serializer_ty := SerializerType.Borsh },
                 { ident := "v", ty := "Vec<u64>", mutability := false, reference := false,
                   bindgen_ty := BindgenArgType.CallbackArgVec,
                   serializer_ty := SerializerType.Borsh }],
        input_serializer := SerializerType.JSON }
      { read_data := { promise_result_arg := 0, panic_idx := 0 },
        mutability := false, ident := "c", ty := "u64",
        invocation := { decode := DecodeFn.borsh_try_from_slice,
                        expect_msg := "Failed to deserialize callback using JSON" } }
      { mutability := false, ident := "v", ty := "Vec<u64>", loop_lower := 0,
        loop_upper := ResultCountExpr.promise_results_count,
        invocation := { decode := DecodeFn.borsh_try_from_slice,
                        expect_msg := "Failed to deserialize callback using JSON" } }).2.1
      (by decide)⟩
